import Mathlib

/-!
Verification development for the serverless-dependency-layer-plugin
(source: src/lib/index.ts). The TypeScript class DependencyLayerPackager is
shallowly embedded: pure string logic is translated directly; effectful
methods are translated as functions from their external inputs (captured
process output, filesystem queries, operator responses) to a trace of the
observable actions they perform plus an Except-valued result modelling
thrown exceptions.
-/

namespace DepLayer

instance {ε α : Type} [DecidableEq ε] [DecidableEq α] : DecidableEq (Except ε α) := fun a b => by
  cases a <;> cases b
  case error.error x y =>
    exact if h : x = y then isTrue (by rw [h])
      else isFalse (by intro hc; injection hc; contradiction)
  case error.ok x y => exact isFalse (by intro hc; injection hc)
  case ok.error x y => exact isFalse (by intro hc; injection hc)
  case ok.ok x y =>
    exact if h : x = y then isTrue (by rw [h])
      else isFalse (by intro hc; injection hc; contradiction)

/-- Plugin name constant (src/lib/index.ts line 14). -/
def fullPluginName : String := "dependency_layer_packager"

/-- Fixed in-container mount path (src/lib/index.ts line 35). -/
def dockerServicePath : String := "/var/task"

/-- Message produced by the method error(msg), which throws
Error(`[fullPluginName] msg`) (src/lib/index.ts lines 57-59). -/
def errMsg (m : String) : String := "[" ++ fullPluginName ++ "] " ++ m

/- JavaScript string primitives are modelled structurally on the character
list underlying the string, so that every definition evaluates by kernel
reduction on concrete inputs. -/

/-- isPrefOf p l decides whether p is an initial segment of l. -/
def isPrefOf : List Char → List Char → Bool
  | [], _ => true
  | _ :: _, [] => false
  | c :: cs, d :: ds => c == d && isPrefOf cs ds

/-- isInfOf p l decides whether p occurs contiguously anywhere in l. -/
def isInfOf (p : List Char) : List Char → Bool
  | [] => p.isEmpty
  | c :: cs => isPrefOf p (c :: cs) || isInfOf p cs

/-- JS s.includes(pat): pat occurs as a substring of s. -/
def strIncludes (s pat : String) : Bool := isInfOf pat.data s.data

/-- JS s.toLowerCase(), restricted to ASCII (all patterns the source
compares against are ASCII). -/
def strLower (s : String) : String := String.mk (s.data.map Char.toLower)

/-- Case-insensitive containment: s.toLowerCase().includes(pat.toLowerCase()).
The source always writes the pattern already in lower case. -/
def containsCI (s pat : String) : Bool := strIncludes (strLower s) (strLower pat)

/-- JS s.trim() (also the regex replacement of leading and trailing
whitespace used at src/lib/index.ts line 247): drop whitespace characters
from both ends. -/
def jsTrim (s : String) : String :=
  String.mk (((s.data.dropWhile Char.isWhitespace).reverse.dropWhile
    Char.isWhitespace).reverse)

/-- JS s.split("\n") on the underlying characters: groups between newline
characters, keeping empty groups. -/
def splitNl : List Char → List (List Char)
  | [] => [[]]
  | c :: cs =>
      if c == '\n' then [] :: splitNl cs
      else
        match splitNl cs with
        | [] => [[c]]
        | g :: gs => (c :: g) :: gs

/-- errorText.split("\n").length (src/lib/index.ts line 120). -/
def countLines (s : String) : Nat := (splitNl s.data).length

/-- The four diagnostic outcomes of the stderr decision chain. -/
inductive Classification where
  | ignoreFalsePositive
  | ignoreWarning
  | fatal
  | ambiguous
deriving DecidableEq, Repr

/-- The stderr decision chain of runProcess (src/lib/index.ts lines 122-140),
applied to the trimmed stderr text, conditions verbatim and in source order:
1. not includes "ERROR:", fewer than 2 newline-split segments, and contains
   "git clone" case-insensitively: ignored false positive;
2. contains "warning" and not "error" (case-insensitive): ignored warning;
3. contains "docker" (case-insensitive): fatal;
4. otherwise ambiguous (interactive confirmation). -/
def classify (errorText : String) : Classification :=
  if !(strIncludes errorText ("ERROR:"))
      && decide (countLines errorText < 2)
      && containsCI errorText ("git clone") then
    Classification.ignoreFalsePositive
  else if containsCI errorText ("warning") && !(containsCI errorText ("error")) then
    Classification.ignoreWarning
  else if containsCI errorText ("docker") then
    Classification.fatal
  else
    Classification.ambiguous

/-- requestUserConfirmation (src/lib/index.ts lines 147-161): reads one
operator line; if its lower-casing contains "y" it returns normally,
otherwise it throws error("Aborting"). -/
def requestUserConfirmation (response : String) : Except String Unit :=
  if containsCI response ("y") then Except.ok ()
  else Except.error (errMsg "Aborting")

/-- Result of ChildProcess.spawnSync: exit status plus captured streams. -/
structure ProcessResult where
  status : Int
  stdout : String
  stderr : String
deriving DecidableEq, Repr

/-- spawnSync either fails to launch (ret.error set) or completes with a
ProcessResult; the exit code of a completed process is inside the result. -/
inductive SpawnOutcome where
  | failed (msg : String)
  | completed (r : ProcessResult)
deriving DecidableEq, Repr

/-- Observable behaviour of one runProcess call. -/
structure RunTrace where
  /-- this.log(errorText): the trimmed stderr, when it was logged. -/
  loggedStderr : Option String
  /-- whether console.log printed the captured stdout. -/
  printedStdout : Bool
  /-- whether requestUserConfirmation was reached. -/
  gateConsulted : Bool
  /-- ok stdout on normal return; error msg models a thrown exception. -/
  result : Except String String
deriving DecidableEq, Repr

/-- runProcess (src/lib/index.ts lines 107-145). A launch failure throws at
once. Otherwise, when stderr is non-empty, the trimmed stderr is logged and
fed to the decision chain: the two ignore outcomes return stdout, the docker
outcome prints stdout and throws, and the ambiguous outcome prints stdout and
blocks on the operator (gateInput models the line read by readline-sync).
The exit status field is never consulted. -/
def runProcess (gateInput : String) (s : SpawnOutcome) : RunTrace :=
  match s with
  | SpawnOutcome.failed msg =>
      ⟨none, false, false, Except.error (errMsg msg)⟩
  | SpawnOutcome.completed r =>
      if r.stderr.length != 0 then
        let errorText := jsTrim r.stderr
        match classify errorText with
        | Classification.ignoreFalsePositive =>
            ⟨some errorText, false, false, Except.ok r.stdout⟩
        | Classification.ignoreWarning =>
            ⟨some errorText, false, false, Except.ok r.stdout⟩
        | Classification.fatal =>
            ⟨some errorText, true, false, Except.error (errMsg "Docker Error Detected")⟩
        | Classification.ambiguous =>
            match requestUserConfirmation gateInput with
            | Except.ok _ => ⟨some errorText, true, true, Except.ok r.stdout⟩
            | Except.error e => ⟨some errorText, true, true, Except.error e⟩
      else
        ⟨none, false, false, Except.ok r.stdout⟩

/-- Raw user-supplied plugin options, before defaulting
(sls.service.custom.dependencyLayer). A `none` field models an absent key
(undefined in JS). -/
structure RawConfig where
  requirementsFile : Option String
  globalRequirements : Option (List String)
  buildDir : Option String
  globalIncludes : Option (List String)
  dockerImage : Option String
  containerName : Option String
  mountSSH : Option Bool
  dockerEnvs : Option (List String)
  abortOnPackagingErrors : Option Bool
  cleanup : Option Bool
deriving DecidableEq, Repr

/-- The resolved configuration object returned by getPluginConfig
(fields of the DependencyLayerConfig interface that the methods consult,
plus abortOnPackagingErrors, which getPluginConfig also sets). -/
structure Config where
  requirementsFile : String
  globalRequirements : List String
  globalIncludes : List String
  buildDir : String
  containerName : String
  cleanup : Bool
  dockerEnvs : List String
  mountSSH : Bool
  dockerImage : String
  abortOnPackagingErrors : Bool
deriving DecidableEq, Repr

/-- JS `v || d` for a possibly-absent string option: undefined and the empty
string are falsy, any other string is kept. -/
def jsOrStr (v : Option String) (d : String) : String :=
  match v with
  | none => d
  | some s => if s.length = 0 then d else s

/-- JS `v || d` for a possibly-absent boolean option: undefined and false are
falsy. -/
def jsOrBool (v : Option Bool) (d : Bool) : Bool :=
  match v with
  | none => d
  | some b => if b then b else d

/-- getPluginConfig (src/lib/index.ts lines 65-86): defaults each option via
JS `||`; a falsy buildDir (absent key or empty string) reaches
this.error("No buildDir configuration specified"), which throws. The cleanup
option is never defaulted (the defaulting line in the source is commented
out), so the resolved value models the raw truthiness that clean() later
tests: an absent value behaves as false. -/
def getPluginConfig (raw : RawConfig) (runtime : String) : Except String Config :=
  match raw.buildDir with
  | none => Except.error (errMsg "No buildDir configuration specified")
  | some bd =>
      if bd.length = 0 then Except.error (errMsg "No buildDir configuration specified")
      else
        Except.ok
          { requirementsFile := jsOrStr raw.requirementsFile "requirements.txt"
            globalRequirements := raw.globalRequirements.getD ["./functions/requirements.txt"]
            buildDir := bd
            globalIncludes := raw.globalIncludes.getD ["./common_files"]
            dockerImage := jsOrStr raw.dockerImage ("lambci/lambda:build-" ++ runtime)
            containerName := jsOrStr raw.containerName fullPluginName
            mountSSH := jsOrBool raw.mountSSH false
            dockerEnvs := raw.dockerEnvs.getD []
            abortOnPackagingErrors := jsOrBool raw.abortOnPackagingErrors true
            cleanup := raw.cleanup.getD false }

/-- Observable behaviour of one clean() call: operator-visible log lines and
the returned value (or the exception propagated out of it). -/
structure CleanTrace where
  logs : List String
  result : Except String Bool
deriving DecidableEq, Repr

/-- clean (src/lib/index.ts lines 88-105). With cleanup disabled it logs its
inaction and returns false. Otherwise fse.remove runs with a .catch handler
that only logs, so a removal failure (removeError) is swallowed; the
container is then stopped through runProcess("docker", ["stop", name, "-t",
"0"]), whose captured output is stopSpawn and whose thrown errors propagate
out of clean. -/
def clean (cfg : Config) (removeError : Option String) (stopSpawn : SpawnOutcome)
    (gateInput : String) : CleanTrace :=
  if !cfg.cleanup then
    ⟨["Cleanup is set to \"false\". Build directory and Docker container (if used) will be retained"],
      Except.ok false⟩
  else
    let logs1 := ["Cleaning build directory..."]
    let logs2 := match removeError with
      | some e => logs1 ++ [e]
      | none => logs1
    let logs3 := logs2 ++ ["Removing Docker container..."]
    let tr := runProcess gateInput stopSpawn
    let logs4 := match tr.loggedStderr with
      | some t => logs3 ++ [t]
      | none => logs3
    match tr.result with
    | Except.ok _ => ⟨logs4, Except.ok true⟩
    | Except.error e => ⟨logs4, Except.error e⟩

/-- The filesystem as queried by the plugin: existence (fse.pathExistsSync,
fse.existsSync) and file size (fse.statSync(...).size). -/
structure FS where
  pathExists : String → Bool
  fileSize : String → Nat

/-- Model of the external upath.normalize: separator normalization to
forward slashes (the only aspect the source relies on). -/
def upathNormalize (s : String) : String :=
  String.mk (s.data.map (fun c => if c == '\\' then '/' else c))

/-- Observable behaviour of one installRequirements call: the warning log,
if any, and the spawned installer invocations (command, arguments). -/
structure InstallTrace where
  warnLog : Option String
  calls : List (String × List String)
deriving DecidableEq, Repr

/-- installRequirements (src/lib/index.ts lines 198-219): returns without
acting when the manifest path does not exist; logs a warning and returns
when its size is zero; otherwise spawns exactly one installer process,
a docker exec of pip against the build directory, with the manifest path
rewritten under the in-container service path. -/
def installRequirements (cfg : Config) (fs : FS) (buildPath requirementsPath : String) :
    InstallTrace :=
  if !(fs.pathExists requirementsPath) then ⟨none, []⟩
  else if fs.fileSize requirementsPath = 0 then
    ⟨some ("WARNING: requirements file at " ++ requirementsPath ++ " is empty. Skiping."), []⟩
  else
    let args := ["install", "--upgrade", "-t", upathNormalize buildPath, "-r"]
    let args2 := ["exec", cfg.containerName, "pip"] ++ args
    let reqInDocker := dockerServicePath ++ "/" ++ requirementsPath
    ⟨none, [("docker", args2 ++ [upathNormalize reqInDocker])]⟩

/-- One entry of sls.service.layers, the external target list (spec section
6: each build target exposes a name, optional declared include paths, and
opaque runtime/architecture metadata). -/
structure Layer where
  path : String
  compatibleRuntimes : List String
  compatibleArchitectures : List String
  name : String
  includes : Option (List String)
deriving DecidableEq, Repr

/-- The record makePackage receives for one build target; `includes` models
the presence or absence of an includes key on the JS object (an absent key
reads as undefined, so `target.includes || []` yields the empty list). -/
structure Target where
  path : String
  compatibleRuntimes : List String
  compatibleArchitectures : List String
  name : String
  includes : Option (List String)
deriving DecidableEq, Repr

/-- selectAll (src/lib/index.ts lines 178-196): maps every layer to a record
with exactly the keys path, compatibleRuntimes, compatibleArchitectures and
name; no includes key is produced. -/
def selectAll (layers : List Layer) : List Target :=
  layers.map (fun t => ⟨t.path, t.compatibleRuntimes, t.compatibleArchitectures, t.name, none⟩)

/-- Model of Path.join for the two joins in makePackage (plain separator
insertion; platform normalization is not modelled). -/
def pathJoin (a b : String) : String := a ++ "/" ++ b

/-- Observable behaviour of one makePackage call. -/
structure PackageTrace where
  /-- the ensured build directory of the target. -/
  buildPath : String
  /-- fse.copySync(item, buildPath) invocations, in order. -/
  copies : List (String × String)
  /-- one installRequirements trace per manifest passing the existence check. -/
  installs : List InstallTrace
  /-- the zipped directory and the artifact written. -/
  zip : String × String
deriving Repr

/-- makePackage (src/lib/index.ts lines 303-329): ensures the build
directory, copies every existing path among target.includes (undefined for
selectAll targets) concatenated with the global includes, then runs
installRequirements for the target manifest and every existing global
manifest, and zips the build directory to buildPath ++ ".zip". -/
def makePackage (cfg : Config) (fs : FS) (target : Target) : PackageTrace :=
  let buildPath := pathJoin cfg.buildDir target.name
  let requirementsPath := pathJoin buildPath cfg.requirementsFile
  let includes := (target.includes.getD []) ++ cfg.globalIncludes
  let copies := (includes.filter fs.pathExists).map (fun item => (item, buildPath))
  let requirementsFiles := [requirementsPath] ++ cfg.globalRequirements
  let installs := (requirementsFiles.filter fs.pathExists).map
    (fun req => installRequirements cfg fs buildPath req)
  ⟨buildPath, copies, installs, (buildPath, buildPath ++ ".zip")⟩

/-- setupContainer (src/lib/index.ts lines 238-274), as the sequence of
docker invocations it issues: a ps query filtered by the configured name
(psOut is its captured stdout); when the trimmed output equals the
configured name, a kill of that container; then a detached auto-removing
run with the working tree bind-mounted, each configured environment
variable injected, the SSH mount when configured, and the configured
name, image and a long-lived bash. -/
def setupContainer (cfg : Config) (psOut : String) (cwd home : String) :
    List (String × List String) :=
  let psCmd := ("docker",
    ["ps", "-a", "--filter", "name=" ++ cfg.containerName, "--format", "\x7b\x7b.Names\x7d\x7d"])
  let trimmed := jsTrim psOut
  let baseArgs := ["run", "--rm", "-dt", "-v", cwd ++ ":" ++ dockerServicePath]
  let withEnvs := baseArgs ++ (cfg.dockerEnvs.map (fun e => ["-e", e])).flatten
  let withSSH := if cfg.mountSSH then withEnvs ++ ["-v", home ++ "/.ssh:/root/.ssh"] else withEnvs
  let runArgs := withSSH ++ ["--name", cfg.containerName, cfg.dockerImage, "bash"]
  if trimmed == cfg.containerName then
    [psCmd, ("docker", ["kill", cfg.containerName]), ("docker", runArgs)]
  else
    [psCmd, ("docker", runArgs)]

/-- The before-packaging hook maps makePackage over the resolved target list
(src/lib/index.ts line 51). Every step of makePackage is synchronous and
blocking, so targets are processed sequentially in list order and a thrown
error rejects the whole mapped promise. The processing of one target is
abstracted as a step function returning ok or a thrown error; the hook
returns the names of the packaged targets, or the first error. -/
def runTargets (step : Target → Except String Unit) : List Target → Except String (List String)
  | [] => Except.ok []
  | t :: ts =>
      match step t with
      | Except.error e => Except.error e
      | Except.ok _ =>
          match runTargets step ts with
          | Except.error e => Except.error e
          | Except.ok names => Except.ok (t.name :: names)

end DepLayer


open DepLayer

/-- Example resolved configuration used by concrete witnesses. -/
def cfgEx : Config :=
  { requirementsFile := "requirements.txt"
    globalRequirements := ["./functions/requirements.txt"]
    globalIncludes := ["./shared"]
    buildDir := "./build"
    containerName := fullPluginName
    cleanup := true
    dockerEnvs := []
    mountSSH := false
    dockerImage := "lambci/lambda:build-python3.8"
    abortOnPackagingErrors := true }

/-- Example filesystem used by concrete witnesses. -/
def fsEx : FS :=
  { pathExists := fun s =>
      s == "./shared" || s == "./common" || s == "./build/api/requirements.txt"
    fileSize := fun s => if s == "./build/api/requirements.txt" then 17 else 0 }

/-- Example build target used by concrete witnesses. -/
def targetEx : Target := ⟨"layers/api", ["python3.8"], [], "api", some ["./common"]⟩

/-- Example raw configurations used by concrete witnesses. -/
def rawEx : RawConfig :=
  ⟨none, none, some "./build", none, none, none, none, none, some false, some true⟩

/-- A raw configuration with no buildDir key. -/
def rawNoBuild : RawConfig :=
  ⟨none, none, none, none, none, none, none, none, none, none⟩

/-- C1: for every non-empty captured stderr, the decision chain runs on the
trimmed text, first match winning: when the text has fewer than 2
newline-split lines, lacks the literal marker, and contains the clone phrase
case-insensitively, the classification is the ignored false positive and
runProcess returns the stdout without consulting the gate; otherwise, when
it contains "warning" and not "error" case-insensitively, the
classification is the ignored warning and execution likewise continues. -/
theorem claim_C1_classifier_ignore_rules (gateInput : String) (st : Int)
    (out stderr : String) (hne : stderr.length ≠ 0) :
    (strIncludes (jsTrim stderr) ("ERROR:") = false →
      countLines (jsTrim stderr) < 2 →
      containsCI (jsTrim stderr) ("git clone") = true →
      classify (jsTrim stderr) = Classification.ignoreFalsePositive ∧
      (runProcess gateInput (SpawnOutcome.completed ⟨st, out, stderr⟩)).result =
        Except.ok out ∧
      (runProcess gateInput (SpawnOutcome.completed ⟨st, out, stderr⟩)).gateConsulted =
        false) ∧
    (¬(strIncludes (jsTrim stderr) ("ERROR:") = false ∧
        countLines (jsTrim stderr) < 2 ∧
        containsCI (jsTrim stderr) ("git clone") = true) →
      containsCI (jsTrim stderr) ("warning") = true →
      containsCI (jsTrim stderr) ("error") = false →
      classify (jsTrim stderr) = Classification.ignoreWarning ∧
      (runProcess gateInput (SpawnOutcome.completed ⟨st, out, stderr⟩)).result =
        Except.ok out ∧
      (runProcess gateInput (SpawnOutcome.completed ⟨st, out, stderr⟩)).gateConsulted =
        false) := by
  have hlen : (stderr.length != 0) = true := by
    simpa [bne_iff_ne] using hne
  constructor
  · intro hE hC hG
    have hcls : classify (jsTrim stderr) = Classification.ignoreFalsePositive := by
      simp [classify, hE, hC, hG]
    exact ⟨hcls, by simp [runProcess, hlen, hcls], by simp [runProcess, hlen, hcls]⟩
  · intro hnot hw he
    have hb : (!(strIncludes (jsTrim stderr) ("ERROR:"))
        && decide (countLines (jsTrim stderr) < 2)
        && containsCI (jsTrim stderr) ("git clone")) = false := by
      cases hbb : (!(strIncludes (jsTrim stderr) ("ERROR:"))
          && decide (countLines (jsTrim stderr) < 2)
          && containsCI (jsTrim stderr) ("git clone"))
      · rfl
      · exfalso
        simp only [Bool.and_eq_true, Bool.not_eq_true', decide_eq_true_eq] at hbb
        exact hnot ⟨hbb.1.1, hbb.1.2, hbb.2⟩
    have hcls : classify (jsTrim stderr) = Classification.ignoreWarning := by
      simp [classify, hb, hw, he]
    exact ⟨hcls, by simp [runProcess, hlen, hcls], by simp [runProcess, hlen, hcls]⟩

/-- C1 witness: concrete runs through both ignore rules. -/
theorem claim_C1_witness :
    (classify (jsTrim "git clone https://x") = Classification.ignoreFalsePositive ∧
      (runProcess "n" (SpawnOutcome.completed ⟨0, "o", "git clone https://x"⟩)).result =
        Except.ok "o" ∧
      (runProcess "n" (SpawnOutcome.completed ⟨0, "o", "git clone https://x"⟩)).gateConsulted =
        false) ∧
    (classify (jsTrim "WARNING: wheel is old") = Classification.ignoreWarning ∧
      (runProcess "n" (SpawnOutcome.completed ⟨0, "o", "WARNING: wheel is old"⟩)).result =
        Except.ok "o" ∧
      (runProcess "n" (SpawnOutcome.completed ⟨0, "o", "WARNING: wheel is old"⟩)).gateConsulted =
        false) := by
  constructor
  · exact (claim_C1_classifier_ignore_rules "n" 0 "o" "git clone https://x"
      (by decide)).1 (by decide) (by decide) (by decide)
  · exact (claim_C1_classifier_ignore_rules "n" 0 "o" "WARNING: wheel is old"
      (by decide)).2 (by decide) (by decide) (by decide)

/-- C2: for every non-empty captured stderr matching neither ignore rule,
a text containing "docker" case-insensitively prints the captured stdout and
throws without consulting the operator, and any other text prints the
captured stdout and passes control to the confirmation gate. -/
theorem claim_C2_fatal_and_ambiguous (gateInput : String) (st : Int)
    (out stderr : String) (hne : stderr.length ≠ 0)
    (hnotFP : ¬(strIncludes (jsTrim stderr) ("ERROR:") = false ∧
        countLines (jsTrim stderr) < 2 ∧
        containsCI (jsTrim stderr) ("git clone") = true))
    (hnotW : ¬(containsCI (jsTrim stderr) ("warning") = true ∧
        containsCI (jsTrim stderr) ("error") = false)) :
    (containsCI (jsTrim stderr) ("docker") = true →
      (runProcess gateInput (SpawnOutcome.completed ⟨st, out, stderr⟩)).printedStdout =
        true ∧
      (runProcess gateInput (SpawnOutcome.completed ⟨st, out, stderr⟩)).gateConsulted =
        false ∧
      (runProcess gateInput (SpawnOutcome.completed ⟨st, out, stderr⟩)).result =
        Except.error (errMsg "Docker Error Detected")) ∧
    (containsCI (jsTrim stderr) ("docker") = false →
      (runProcess gateInput (SpawnOutcome.completed ⟨st, out, stderr⟩)).printedStdout =
        true ∧
      (runProcess gateInput (SpawnOutcome.completed ⟨st, out, stderr⟩)).gateConsulted =
        true) := by
  have hlen : (stderr.length != 0) = true := by
    simpa [bne_iff_ne] using hne
  have hb1 : (!(strIncludes (jsTrim stderr) ("ERROR:"))
      && decide (countLines (jsTrim stderr) < 2)
      && containsCI (jsTrim stderr) ("git clone")) = false := by
    cases hbb : (!(strIncludes (jsTrim stderr) ("ERROR:"))
        && decide (countLines (jsTrim stderr) < 2)
        && containsCI (jsTrim stderr) ("git clone"))
    · rfl
    · exfalso
      simp only [Bool.and_eq_true, Bool.not_eq_true', decide_eq_true_eq] at hbb
      exact hnotFP ⟨hbb.1.1, hbb.1.2, hbb.2⟩
  have hb2 : (containsCI (jsTrim stderr) ("warning")
      && !(containsCI (jsTrim stderr) ("error"))) = false := by
    cases hbb : (containsCI (jsTrim stderr) ("warning")
        && !(containsCI (jsTrim stderr) ("error")))
    · rfl
    · exfalso
      simp only [Bool.and_eq_true, Bool.not_eq_true'] at hbb
      exact hnotW ⟨hbb.1, hbb.2⟩
  constructor
  · intro hd
    have hcls : classify (jsTrim stderr) = Classification.fatal := by
      simp [classify, hb1, hb2, hd]
    refine ⟨?_, ?_, ?_⟩ <;> simp [runProcess, hlen, hcls]
  · intro hd
    have hcls : classify (jsTrim stderr) = Classification.ambiguous := by
      simp [classify, hb1, hb2, hd]
    cases hgate : requestUserConfirmation gateInput <;>
      exact ⟨by simp [runProcess, hlen, hcls, hgate], by simp [runProcess, hlen, hcls, hgate]⟩

/-- C2 witness: concrete fatal and ambiguous runs. -/
theorem claim_C2_witness :
    ((runProcess "n" (SpawnOutcome.completed ⟨0, "o", "docker daemon unreachable"⟩)).printedStdout =
        true ∧
      (runProcess "n" (SpawnOutcome.completed ⟨0, "o", "docker daemon unreachable"⟩)).gateConsulted =
        false ∧
      (runProcess "n" (SpawnOutcome.completed ⟨0, "o", "docker daemon unreachable"⟩)).result =
        Except.error (errMsg "Docker Error Detected")) ∧
    ((runProcess "n" (SpawnOutcome.completed ⟨0, "o", "mystery text"⟩)).printedStdout = true ∧
      (runProcess "n" (SpawnOutcome.completed ⟨0, "o", "mystery text"⟩)).gateConsulted = true) := by
  constructor
  · exact (claim_C2_fatal_and_ambiguous "n" 0 "o" "docker daemon unreachable"
      (by decide) (by decide) (by decide)).1 (by decide)
  · exact (claim_C2_fatal_and_ambiguous "n" 0 "o" "mystery text"
      (by decide) (by decide) (by decide)).2 (by decide)

/-- C3: the confirmation gate resolves to Continue exactly when the operator
line contains the letter y case-insensitively in any position; any other
line resolves to Abort, which throws error("Aborting"), and a thrown step
error makes the whole mapped run fail, so no remaining target is packaged. -/
theorem claim_C3_gate_and_abort_propagation :
    (∀ input : String,
      requestUserConfirmation input = Except.ok () ↔ containsCI input ("y") = true) ∧
    (∀ input : String, containsCI input ("y") = false →
      requestUserConfirmation input = Except.error (errMsg "Aborting")) ∧
    (∀ (step : Target → Except String Unit) (pre : List Target) (t : Target)
        (post : List Target) (e : String),
      (∀ u ∈ pre, step u = Except.ok ()) → step t = Except.error e →
      runTargets step (pre ++ t :: post) = Except.error e) := by
  refine ⟨?_, ?_, ?_⟩
  · intro input
    cases h : containsCI input ("y") <;> simp [requestUserConfirmation, h]
  · intro input h
    simp [requestUserConfirmation, h]
  · intro step pre t post e hpre ht
    induction pre with
    | nil => simp [runTargets, ht]
    | cons u us ih =>
        have hu : step u = Except.ok () := hpre u (by simp)
        have ih2 := ih (fun v hv => hpre v (by simp [hv]))
        simp [runTargets, hu, ih2]

/-- C3 witness: a y-bearing line continues, "no" aborts, and a failing middle
target makes the run fail. -/
theorem claim_C3_witness :
    requestUserConfirmation "Yes" = Except.ok () ∧
    requestUserConfirmation "no" = Except.error (errMsg "Aborting") ∧
    runTargets
      (fun u => if u.name == "a" then Except.ok () else Except.error (errMsg "Aborting"))
      [⟨"", [], [], "a", none⟩, ⟨"", [], [], "b", none⟩, ⟨"", [], [], "c", none⟩] =
      Except.error (errMsg "Aborting") := by
  refine ⟨?_, ?_, ?_⟩
  · exact (claim_C3_gate_and_abort_propagation.1 "Yes").mpr (by decide)
  · exact claim_C3_gate_and_abort_propagation.2.1 "no" (by decide)
  · exact claim_C3_gate_and_abort_propagation.2.2
      (fun u => if u.name == "a" then Except.ok () else Except.error (errMsg "Aborting"))
      [⟨"", [], [], "a", none⟩] ⟨"", [], [], "b", none⟩ [⟨"", [], [], "c", none⟩]
      (errMsg "Aborting") (by decide) (by decide)

/-- C4: makePackage copies exactly those paths among the target's includes
concatenated with the global includes that exist, each into the target's
build directory, and a non-existent path is skipped without any failure. -/
theorem claim_C4_include_copying (cfg : Config) (fs : FS) (target : Target) (p : String) :
    ((p, pathJoin cfg.buildDir target.name) ∈ (makePackage cfg fs target).copies ↔
      (p ∈ target.includes.getD [] ++ cfg.globalIncludes ∧ fs.pathExists p = true)) ∧
    (∀ q ∈ (makePackage cfg fs target).copies,
      q.2 = pathJoin cfg.buildDir target.name) := by
  constructor
  · simp [makePackage, List.mem_filter, or_and_right]
  · intro q hq
    simp [makePackage, List.mem_filter] at hq
    rcases hq with ⟨a, -, ha⟩ | ⟨a, -, ha⟩ <;> simp [← ha]

/-- C4 witness: a declared include and a global include that exist are both
copied; a non-existent path is not. -/
theorem claim_C4_witness :
    ("./common", pathJoin cfgEx.buildDir targetEx.name) ∈
      (makePackage cfgEx fsEx targetEx).copies ∧
    ("./shared", pathJoin cfgEx.buildDir targetEx.name) ∈
      (makePackage cfgEx fsEx targetEx).copies ∧
    ¬(("./missing", pathJoin cfgEx.buildDir targetEx.name) ∈
      (makePackage cfgEx fsEx targetEx).copies) := by
  refine ⟨?_, ?_, ?_⟩
  · exact (claim_C4_include_copying cfgEx fsEx targetEx "./common").1.mpr
      ⟨by decide, by decide⟩
  · exact (claim_C4_include_copying cfgEx fsEx targetEx "./shared").1.mpr
      ⟨by decide, by decide⟩
  · intro h
    have := (claim_C4_include_copying cfgEx fsEx targetEx "./missing").1.mp h
    exact absurd this.2 (by decide)

/-- C5: a missing manifest path makes installRequirements a no-op; an
existing zero-length manifest logs a warning and spawns nothing; an existing
non-empty manifest spawns exactly one installer invocation. -/
theorem claim_C5_manifest_handling (cfg : Config) (fs : FS) (buildPath reqPath : String) :
    (fs.pathExists reqPath = false →
      installRequirements cfg fs buildPath reqPath = ⟨none, []⟩) ∧
    (fs.pathExists reqPath = true → fs.fileSize reqPath = 0 →
      (installRequirements cfg fs buildPath reqPath).warnLog =
        some ("WARNING: requirements file at " ++ reqPath ++ " is empty. Skiping.") ∧
      (installRequirements cfg fs buildPath reqPath).calls = []) ∧
    (fs.pathExists reqPath = true → fs.fileSize reqPath ≠ 0 →
      (installRequirements cfg fs buildPath reqPath).calls.length = 1 ∧
      (installRequirements cfg fs buildPath reqPath).warnLog = none) := by
  refine ⟨?_, ?_, ?_⟩
  · intro h
    simp [installRequirements, h]
  · intro h hz
    constructor <;> simp [installRequirements, h, hz]
  · intro h hz
    constructor <;> simp [installRequirements, h, hz]

/-- C5 witness: concrete missing, empty and non-empty manifests. -/
theorem claim_C5_witness :
    installRequirements cfgEx fsEx "./build/api" "./nowhere.txt" = ⟨none, []⟩ ∧
    (installRequirements cfgEx fsEx "./build/api" "./build/api/requirements.txt").calls.length =
      1 ∧
    (installRequirements cfgEx
        ⟨fun s => s == "./empty.txt", fun _ => 0⟩ "./build/api" "./empty.txt").calls = [] := by
  refine ⟨?_, ?_, ?_⟩
  · exact (claim_C5_manifest_handling cfgEx fsEx "./build/api" "./nowhere.txt").1 (by decide)
  · exact ((claim_C5_manifest_handling cfgEx fsEx "./build/api"
      "./build/api/requirements.txt").2.2 (by decide) (by decide)).1
  · exact ((claim_C5_manifest_handling cfgEx
      ⟨fun s => s == "./empty.txt", fun _ => 0⟩ "./build/api" "./empty.txt").2.1
      (by decide) (by decide)).2

/-- C6 counterexample: with cleanup enabled and no removal failure at all, a
failing container stop (the engine writes "Cannot connect to the Docker
daemon" to stderr) makes clean() propagate a thrown error instead of
returning normally, so a container-stop failure is not "logged only". -/
theorem claim_C6_counterexample :
    cfgEx.cleanup = true ∧
    (clean cfgEx none
        (SpawnOutcome.completed ⟨1, "", "Cannot connect to the Docker daemon"⟩)
        "n").result =
      Except.error (errMsg "Docker Error Detected") ∧
    ∀ b : Bool,
      (clean cfgEx none
          (SpawnOutcome.completed ⟨1, "", "Cannot connect to the Docker daemon"⟩)
          "n").result ≠ Except.ok b := by
  refine ⟨by decide, by decide, ?_⟩
  intro b
  cases b <;> decide

/-- C6 amended: with cleanup enabled, a failure during build-directory
removal is logged and never propagates — the result of clean() does not
depend on the removal failure at all; a failure while stopping the
container, however, goes through runProcess and can propagate. -/
theorem claim_C6_amended (cfg : Config) (re re2 : Option String)
    (sp : SpawnOutcome) (g e : String) :
    ((clean cfg re sp g).result = (clean cfg re2 sp g).result) ∧
    (cfg.cleanup = true → e ∈ (clean cfg (some e) sp g).logs) := by
  constructor
  · cases hc : cfg.cleanup
    · simp [clean, hc]
    · cases hr : (runProcess g sp).result <;> simp [clean, hc, hr]
  · intro hc
    cases hls : (runProcess g sp).loggedStderr <;>
      cases hr : (runProcess g sp).result <;>
        simp [clean, hc, hls, hr]

/-- C6 amended witness: a removal failure does not change the result, and
the failure text is logged. -/
theorem claim_C6_amended_witness :
    ((clean cfgEx (some "EACCES: permission denied") (SpawnOutcome.completed ⟨0, "", ""⟩)
        "n").result =
      (clean cfgEx none (SpawnOutcome.completed ⟨0, "", ""⟩) "n").result) ∧
    "EACCES: permission denied" ∈
      (clean cfgEx (some "EACCES: permission denied")
        (SpawnOutcome.completed ⟨0, "", ""⟩) "n").logs := by
  refine ⟨?_, ?_⟩
  · exact (claim_C6_amended cfgEx (some "EACCES: permission denied") none
      (SpawnOutcome.completed ⟨0, "", ""⟩) "n" "EACCES: permission denied").1
  · exact (claim_C6_amended cfgEx (some "EACCES: permission denied") none
      (SpawnOutcome.completed ⟨0, "", ""⟩) "n" "EACCES: permission denied").2 (by decide)

/-- C7: when the trimmed ps output equals the configured container name, the
existing container is killed and a fresh detached auto-removing container is
started with the same name; otherwise the run is issued directly after the
query. In both cases the run command is "docker run --rm -dt -v
cwd:/var/task ... --name containerName image bash". -/
theorem claim_C7_container_lifecycle (cfg : Config) (psOut cwd home : String) :
    (jsTrim psOut = cfg.containerName →
      ∃ mid : List String,
        setupContainer cfg psOut cwd home =
          [("docker", ["ps", "-a", "--filter", "name=" ++ cfg.containerName,
              "--format", "\x7b\x7b.Names\x7d\x7d"]),
           ("docker", ["kill", cfg.containerName]),
           ("docker", ["run", "--rm", "-dt", "-v", cwd ++ ":" ++ dockerServicePath] ++
              mid ++ ["--name", cfg.containerName, cfg.dockerImage, "bash"])]) ∧
    (jsTrim psOut ≠ cfg.containerName →
      ∃ mid : List String,
        setupContainer cfg psOut cwd home =
          [("docker", ["ps", "-a", "--filter", "name=" ++ cfg.containerName,
              "--format", "\x7b\x7b.Names\x7d\x7d"]),
           ("docker", ["run", "--rm", "-dt", "-v", cwd ++ ":" ++ dockerServicePath] ++
              mid ++ ["--name", cfg.containerName, cfg.dockerImage, "bash"])]) := by
  constructor
  · intro h
    refine ⟨(cfg.dockerEnvs.map (fun e => ["-e", e])).flatten ++
      (if cfg.mountSSH then ["-v", home ++ "/.ssh:/root/.ssh"] else []), ?_⟩
    cases hssh : cfg.mountSSH <;> simp [setupContainer, h, hssh]
  · intro h
    have hbeq : (jsTrim psOut == cfg.containerName) = false := by
      simpa [beq_iff_eq] using h
    refine ⟨(cfg.dockerEnvs.map (fun e => ["-e", e])).flatten ++
      (if cfg.mountSSH then ["-v", home ++ "/.ssh:/root/.ssh"] else []), ?_⟩
    cases hssh : cfg.mountSSH <;> simp [setupContainer, hbeq, hssh]

/-- C7 witness: the configured name in the ps output triggers kill-then-run;
an empty ps output starts the container directly. -/
theorem claim_C7_witness :
    (∃ mid : List String,
      setupContainer cfgEx ("dependency_layer_packager\n") "/work" "/root" =
        [("docker", ["ps", "-a", "--filter", "name=" ++ cfgEx.containerName,
            "--format", "\x7b\x7b.Names\x7d\x7d"]),
         ("docker", ["kill", cfgEx.containerName]),
         ("docker", ["run", "--rm", "-dt", "-v", "/work" ++ ":" ++ dockerServicePath] ++
            mid ++ ["--name", cfgEx.containerName, cfgEx.dockerImage, "bash"])]) ∧
    (∃ mid : List String,
      setupContainer cfgEx "" "/work" "/root" =
        [("docker", ["ps", "-a", "--filter", "name=" ++ cfgEx.containerName,
            "--format", "\x7b\x7b.Names\x7d\x7d"]),
         ("docker", ["run", "--rm", "-dt", "-v", "/work" ++ ":" ++ dockerServicePath] ++
            mid ++ ["--name", cfgEx.containerName, cfgEx.dockerImage, "bash"])]) := by
  constructor
  · exact (claim_C7_container_lifecycle cfgEx ("dependency_layer_packager\n")
      "/work" "/root").1 (by decide)
  · exact (claim_C7_container_lifecycle cfgEx "" "/work" "/root").2 (by decide)

/-- C8: a completed subprocess with empty captured stderr makes runProcess
return the captured stdout as a success, with no logging, no printing and no
confirmation, whatever the exit status; more generally the whole observable
behaviour of runProcess is independent of the exit status field. -/
theorem claim_C8_empty_stderr_success (gateInput out stderrText : String)
    (st st2 : Int) :
    runProcess gateInput (SpawnOutcome.completed ⟨st, out, ""⟩) =
      ⟨none, false, false, Except.ok out⟩ ∧
    runProcess gateInput (SpawnOutcome.completed ⟨st, out, stderrText⟩) =
      runProcess gateInput (SpawnOutcome.completed ⟨st2, out, stderrText⟩) := by
  exact ⟨rfl, rfl⟩

/-- C9: configuration resolution succeeds exactly when buildDir is supplied
and non-empty; it then carries that buildDir through unchanged, so a
resolved buildDir is never empty; an absent or empty buildDir reaches the
fatal error. -/
theorem claim_C9_buildDir_required (raw : RawConfig) (runtime : String) :
    ((∃ cfg, getPluginConfig raw runtime = Except.ok cfg) ↔
      (∃ s, raw.buildDir = some s ∧ s.length ≠ 0)) ∧
    (∀ cfg, getPluginConfig raw runtime = Except.ok cfg →
      cfg.buildDir.length ≠ 0 ∧ raw.buildDir = some cfg.buildDir) ∧
    ((raw.buildDir = none ∨ raw.buildDir = some "") →
      getPluginConfig raw runtime =
        Except.error (errMsg "No buildDir configuration specified")) := by
  cases hb : raw.buildDir with
  | none => simp [getPluginConfig, hb]
  | some s =>
      by_cases hl : s.length = 0
      · have hs : s = "" := by
          cases s with
          | mk l => cases l with
            | nil => rfl
            | cons c cs => simp [String.length] at hl
        refine ⟨?_, ?_, ?_⟩
        · simp [getPluginConfig, hb, hl]
        · intro cfg hcfg
          simp [getPluginConfig, hb, hl] at hcfg
        · intro hcase
          simp [getPluginConfig, hb, hl]
      · refine ⟨?_, ?_, ?_⟩
        · simp [getPluginConfig, hb, hl]
        · intro cfg hcfg
          simp [getPluginConfig, hb, hl] at hcfg
          rw [← hcfg]
          exact ⟨hl, rfl⟩
        · intro hcase
          rcases hcase with hcase | hcase
          · exact absurd hcase (by simp)
          · have hs : s = "" := by injection hcase
            exact absurd (by rw [hs]; rfl) hl

/-- C9 witness: a non-empty buildDir resolves, and the resolved buildDir is
that string; a missing buildDir fails fatally. -/
theorem claim_C9_witness :
    (∃ cfg, getPluginConfig rawEx "python3.8" = Except.ok cfg) ∧
    getPluginConfig rawNoBuild "python3.8" =
      Except.error (errMsg "No buildDir configuration specified") := by
  constructor
  · exact (claim_C9_buildDir_required rawEx "python3.8").1.mpr
      ⟨"./build", rfl, by decide⟩
  · exact (claim_C9_buildDir_required rawNoBuild "python3.8").2.2 (Or.inl rfl)

/-- Every supplied value of the abortOnPackagingErrors option (including an
explicit false) resolves to true under JS `v || true`. -/
theorem jsOrBool_true (v : Option Bool) : jsOrBool v true = true := by
  cases v with
  | none => rfl
  | some b => cases b <;> rfl

/-- C10: the abortOnPackagingErrors option is inert: resolution maps every
supplied value (or absence) of it to true, and every operation of the
plugin is unchanged when the resolved value is replaced by any boolean, so
no observable behaviour depends on it. -/
theorem claim_C10_abort_option_inert :
    (∀ (raw : RawConfig) (runtime : String) (cfg : Config),
      getPluginConfig raw runtime = Except.ok cfg →
      cfg.abortOnPackagingErrors = true) ∧
    (∀ (cfg : Config) (b : Bool) (re : Option String) (sp : SpawnOutcome) (g : String),
      clean { cfg with abortOnPackagingErrors := b } re sp g = clean cfg re sp g) ∧
    (∀ (cfg : Config) (b : Bool) (psOut cwd home : String),
      setupContainer { cfg with abortOnPackagingErrors := b } psOut cwd home =
        setupContainer cfg psOut cwd home) ∧
    (∀ (cfg : Config) (b : Bool) (fs : FS) (bp rp : String),
      installRequirements { cfg with abortOnPackagingErrors := b } fs bp rp =
        installRequirements cfg fs bp rp) ∧
    (∀ (cfg : Config) (b : Bool) (fs : FS) (t : Target),
      makePackage { cfg with abortOnPackagingErrors := b } fs t =
        makePackage cfg fs t) := by
  refine ⟨?_, ?_, ?_, ?_, ?_⟩
  · intro raw runtime cfg hcfg
    cases hb : raw.buildDir with
    | none => simp [getPluginConfig, hb] at hcfg
    | some s =>
        by_cases hl : s.length = 0
        · simp [getPluginConfig, hb, hl] at hcfg
        · simp [getPluginConfig, hb, hl] at hcfg
          rw [← hcfg]
          exact jsOrBool_true raw.abortOnPackagingErrors
  · intro cfg b re sp g
    cases cfg
    rfl
  · intro cfg b psOut cwd home
    cases cfg
    rfl
  · intro cfg b fs bp rp
    cases cfg
    rfl
  · intro cfg b fs t
    cases cfg
    rfl

/-- C10 witness: a configuration supplying false still resolves to true, and
a concrete operation is unchanged under flipping the resolved flag. -/
theorem claim_C10_witness :
    (∀ cfg, getPluginConfig rawEx "python3.8" = Except.ok cfg →
      cfg.abortOnPackagingErrors = true) ∧
    clean { cfgEx with abortOnPackagingErrors := false }
        none (SpawnOutcome.completed ⟨0, "", ""⟩) "n" =
      clean cfgEx none (SpawnOutcome.completed ⟨0, "", ""⟩) "n" := by
  constructor
  · intro cfg hcfg
    exact claim_C10_abort_option_inert.1 rawEx "python3.8" cfg hcfg
  · exact claim_C10_abort_option_inert.2.1 cfgEx false none
      (SpawnOutcome.completed ⟨0, "", ""⟩) "n"
